import Mathlib

/-!
Shallow embedding of `services/ai_processor.py` (virtual try-on AI processing
service) and proofs about its specified behaviour.

Modelling conventions:
* Python strings are `String`; lowercasing is ASCII (`Char.toLower`), which is
  faithful on every string appearing in the classifier's keyword tables.
* Python `pattern in text` substring tests are `pyIn`.
* Raw image bytes are an abstract type `Bytes := List Nat`.
* The external collaborators (image preparation from `image_processor`,
  base64 encode/decode, the Gemini provider, and Python's `json.loads`) are
  parameters of the functions that call them.  The provider is modelled as a
  function from the 0-based attempt index to the outcome of that attempt
  (`Except PyError String`), abstracting the response to the fixed payload.
* A raised Python exception is a `PyError` carrying `str(e)` and
  `type(e).__name__`; fallible computations return `Except`/`Option`.
* `float` arithmetic in the backoff scheduler is modelled over `ℚ`; the
  value drawn by `random.uniform(0.1, 0.3)` is an explicit parameter `u`.
* Wall-clock timing (`processing_time`) and the async event loop are not
  modelled; `asyncio.sleep` is recorded as the list of attempt indices after
  which the retry loop slept.
-/

/-! ## Python string primitives -/

/-- Bool test that `pat` occurs as a contiguous run at the head of `s`. -/
def listStartsWith : List Char → List Char → Bool
  | [], _ => true
  | _ :: _, [] => false
  | a :: as, b :: bs => a == b && listStartsWith as bs

/-- Bool test that `pat` occurs contiguously anywhere inside `s`
(Python's `pat in s`). -/
def listContainsSub : List Char → List Char → Bool
  | pat, [] => pat.isEmpty
  | pat, c :: cs => listStartsWith pat (c :: cs) || listContainsSub pat cs

/-- Python's substring containment `pat in s`. -/
def pyIn (pat s : String) : Bool := listContainsSub pat.data s.data

/-- Python's `str.lower()` (ASCII; all keyword tables are ASCII). -/
def strLower (s : String) : String := String.mk (s.data.map Char.toLower)

/-- The character `{` (written via its code so it can be used in patterns). -/
def lbrace : Char := Char.ofNat 123

/-- The character `}`. -/
def rbrace : Char := Char.ofNat 125

/-- Helper for `pyFind`: index of the first occurrence of `c`, counting from
`i`. -/
def findCharAux (c : Char) : List Char → Nat → Option Nat
  | [], _ => none
  | x :: xs, i => if x = c then some i else findCharAux c xs (i + 1)

/-- Python's `s.find(c)`: index of the first occurrence of `c`, or `-1`. -/
def pyFind (s : String) (c : Char) : Int :=
  match findCharAux c s.data 0 with
  | some i => (i : Int)
  | none => -1

/-- Helper for `pyRfind`: index of the last occurrence of `c` seen so far. -/
def rfindCharAux (c : Char) : List Char → Nat → Option Nat → Option Nat
  | [], _, acc => acc
  | x :: xs, i, acc => rfindCharAux c xs (i + 1) (if x = c then some i else acc)

/-- Python's `s.rfind(c)`: index of the last occurrence of `c`, or `-1`. -/
def pyRfind (s : String) (c : Char) : Int :=
  match rfindCharAux c s.data 0 none with
  | some i => (i : Int)
  | none => -1

/-- Python's slice `s[a:b]` for `0 ≤ a` and `0 ≤ b` (the only way the source
uses it). -/
def pySlice (s : String) (a b : Int) : String :=
  String.mk ((s.data.drop a.toNat).take (b.toNat - a.toNat))

/-! ## Data model (the dataclasses and enum of `ai_processor.py`) -/

/-- Raw image bytes, abstract. -/
abbrev Bytes := List Nat

/-- A raised Python exception: `str(e)` and `type(e).__name__`. -/
structure PyError where
  message : String
  typeName : String
deriving DecidableEq

/-- Request for virtual try-on processing (`VirtualTryOnRequest`).  Photo and
clothing buffers are base64-encoded strings, as in the source. -/
structure VirtualTryOnRequest where
  userBasePhotos : List String
  clothingItems : List String
  sessionId : String
  userId : String
deriving DecidableEq

/-- AI failure classification types (`AIFailureType`). -/
inductive AIFailureType where
  | API_QUOTA_EXCEEDED
  | API_RATE_LIMIT
  | API_TIMEOUT
  | API_AUTHENTICATION
  | API_SERVER_ERROR
  | IMAGE_PROCESSING_ERROR
  | INVALID_REQUEST
  | CONTENT_POLICY_VIOLATION
  | UNKNOWN_ERROR
deriving DecidableEq

/-- Detailed failure information (`AIFailureInfo`). -/
structure AIFailureInfo where
  failureType : AIFailureType
  errorMessage : String
  retryable : Bool
  userFriendlyMessage : String
  suggestedAction : String
  retryAfterSeconds : Option Nat
deriving DecidableEq

/-- Retry configuration (`RetryConfig`); delays are modelled over `ℚ`. -/
structure RetryConfig where
  maxRetries : Nat := 3
  baseDelay : ℚ := 1
  maxDelay : ℚ := 60
  backoffMultiplier : ℚ := 2
  jitter : Bool := true

/-- Result of clothing detection (`ClothingDetectionResult`); the confidence
number is modelled over `ℚ`. -/
structure ClothingDetectionResult where
  is_clothing : Bool
  category : String
  quality : String
  suitable : Bool
  confidence : ℚ
deriving DecidableEq

/-- Metadata attached to a `VirtualTryOnResult`: the success-path dict or the
failure-path dict built in `process_virtual_try_on`. -/
inductive TryOnMetadata where
  | successMeta (sessionId userId : String) (userPhotosCount clothingItemsCount : Nat)
  | failureMeta (failureType : AIFailureType) (suggestedAction : String)
      (retryable : Bool) (retryAfterSeconds : Option Nat) (technicalError : String)
deriving DecidableEq

/-- Result of virtual try-on processing (`VirtualTryOnResult`).  The
`processing_time` field is wall-clock time and is not modelled. -/
structure VirtualTryOnResult where
  success : Bool
  generatedImage : Option String
  error : Option String
  retryCount : Nat
  metadata : Option TryOnMetadata
deriving DecidableEq

/-- Outcome of the external image-preparation collaborator
(`image_processor.prepare_*_for_ai_bytes`): a dict with a `success` flag and
the processed image bytes. -/
structure PrepOutcome where
  success : Bool
  processedImage : Bytes
deriving DecidableEq

/-! ## Failure classification (`_classify_failure`, `_create_failure_info`) -/

/-- Keyword list for `API_QUOTA_EXCEEDED` in `failure_patterns`. -/
def quotaPatterns : List String := ["quota exceeded", "quota limit", "usage limit", "billing"]

/-- Keyword list for `API_RATE_LIMIT` in `failure_patterns`. -/
def rateLimitPatterns : List String := ["rate limit", "too many requests", "throttled", "429"]

/-- Keyword list for `API_TIMEOUT` in `failure_patterns`. -/
def timeoutPatterns : List String := ["timeout", "timed out", "request timeout", "deadline exceeded"]

/-- Keyword list for `API_AUTHENTICATION` in `failure_patterns`. -/
def authPatterns : List String := ["unauthorized", "authentication", "invalid key", "401", "403"]

/-- Keyword list for `API_SERVER_ERROR` in `failure_patterns`. -/
def serverErrorPatterns : List String :=
  ["server error", "internal error", "500", "502", "503", "504"]

/-- Keyword list for `CONTENT_POLICY_VIOLATION` in `failure_patterns`. -/
def contentPolicyPatterns : List String := ["content policy", "safety", "inappropriate", "blocked"]

/-- The `failure_patterns` table, in its fixed (insertion) iteration order. -/
def failurePatterns : List (AIFailureType × List String) :=
  [(AIFailureType.API_QUOTA_EXCEEDED, quotaPatterns),
   (AIFailureType.API_RATE_LIMIT, rateLimitPatterns),
   (AIFailureType.API_TIMEOUT, timeoutPatterns),
   (AIFailureType.API_AUTHENTICATION, authPatterns),
   (AIFailureType.API_SERVER_ERROR, serverErrorPatterns),
   (AIFailureType.CONTENT_POLICY_VIOLATION, contentPolicyPatterns)]

/-- First table entry whose keyword list matches the (lowercased) error text;
`first matching kind wins`. -/
def findMatch : List (AIFailureType × List String) → String → Option AIFailureType
  | [], _ => none
  | (ft, pats) :: rest, s => if pats.any (fun p => pyIn p s) then some ft else findMatch rest s

/-- The `failure_messages` lookup in `_create_failure_info`, packaged as an
`AIFailureInfo` for the given error. -/
def createFailureInfo (failureType : AIFailureType) (e : PyError) : AIFailureInfo :=
  match failureType with
  | AIFailureType.API_QUOTA_EXCEEDED =>
    ⟨failureType, e.message, true,
     "AI service quota exceeded. Please try again later or upgrade your plan.",
     "Wait 24 hours or contact support to increase quota limits.", some 3600⟩
  | AIFailureType.API_RATE_LIMIT =>
    ⟨failureType, e.message, true,
     "Too many requests. Please wait a moment before trying again.",
     "Wait a few minutes and try again.", some 300⟩
  | AIFailureType.API_TIMEOUT =>
    ⟨failureType, e.message, true,
     "Request timed out. The AI service is taking longer than expected.",
     "Try again with fewer clothing items or simpler images.", some 60⟩
  | AIFailureType.API_AUTHENTICATION =>
    ⟨failureType, e.message, false,
     "Authentication failed. Please contact support.",
     "Contact support to verify your API key configuration.", none⟩
  | AIFailureType.API_SERVER_ERROR =>
    ⟨failureType, e.message, true,
     "AI service temporarily unavailable. Please try again later.",
     "Wait a few minutes and try again.", some 180⟩
  | AIFailureType.IMAGE_PROCESSING_ERROR =>
    ⟨failureType, e.message, true,
     "Image processing failed. Please check your images and try again.",
     "Ensure images are clear, well-lit, and in supported formats.", some 30⟩
  | AIFailureType.INVALID_REQUEST =>
    ⟨failureType, e.message, false,
     "Invalid request. Please check your input and try again.",
     "Verify you have selected clothing items and uploaded base photos.", none⟩
  | AIFailureType.CONTENT_POLICY_VIOLATION =>
    ⟨failureType, e.message, false,
     "Content policy violation. Please use appropriate images.",
     "Ensure all images are appropriate and follow our guidelines.", none⟩
  | AIFailureType.UNKNOWN_ERROR =>
    ⟨failureType, e.message, true,
     "An unexpected error occurred. Please try again.",
     "If the problem persists, contact support.", some 60⟩

/-- `_classify_failure`: keyword table scan over the lowercased error text,
then the secondary checks on the exception's type name and message. -/
def classifyFailure (e : PyError) : AIFailureInfo :=
  let errorStr := strLower e.message
  match findMatch failurePatterns errorStr with
  | some failureType => createFailureInfo failureType e
  | none =>
    if pyIn "timeout" (strLower e.typeName) || pyIn "timeout" errorStr then
      createFailureInfo AIFailureType.API_TIMEOUT e
    else if pyIn "connection" errorStr || pyIn "network" errorStr then
      createFailureInfo AIFailureType.API_SERVER_ERROR e
    else if pyIn "image" errorStr || pyIn "processing" errorStr then
      createFailureInfo AIFailureType.IMAGE_PROCESSING_ERROR e
    else
      createFailureInfo AIFailureType.UNKNOWN_ERROR e

/-! ## Backoff scheduler (`_calculate_retry_delay`) -/

/-- `_calculate_retry_delay`.  `u` is the value drawn by
`random.uniform(0.1, 0.3)` on this call (an explicit parameter so the
non-deterministic draw is visible in statements). -/
def calculateRetryDelay (cfg : RetryConfig) (u : ℚ) (attempt : Nat) : ℚ :=
  if attempt = 0 then 0
  else
    let rawDelay := cfg.baseDelay * cfg.backoffMultiplier ^ (attempt - 1)
    let cappedDelay := min rawDelay cfg.maxDelay
    if cfg.jitter then cappedDelay + u * cappedDelay else cappedDelay

/-! ## Retrying provider client (`_generate_content_with_retry`) -/

/-- What one run of the retry loop did: the final outcome (`Except.ok` is the
returned response text, `Except.error` the classification of the last
attempt's exception, from which the method raises), the number of provider
attempts performed, and the attempt indices after which it slept. -/
structure RetryOutcome where
  result : Except AIFailureInfo String
  attempts : Nat
  sleptAfter : List Nat

/-- The body of the `for attempt in range(max_retries + 1)` loop, starting at
attempt index `attempt` with `remaining = max_retries - attempt` further
indices available.  `provider i` is the outcome of the provider call on
attempt `i`. -/
def generateAux (provider : Nat → Except PyError String) :
    Nat → Nat → RetryOutcome
  | 0, attempt =>
    match provider attempt with
    | Except.ok t => ⟨Except.ok t, 1, []⟩
    | Except.error e => ⟨Except.error (classifyFailure e), 1, []⟩
  | r + 1, attempt =>
    match provider attempt with
    | Except.ok t => ⟨Except.ok t, 1, []⟩
    | Except.error e =>
      let fi := classifyFailure e
      if fi.retryable then
        let rest := generateAux provider r (attempt + 1)
        ⟨rest.result, rest.attempts + 1, attempt :: rest.sleptAfter⟩
      else ⟨Except.error fi, 1, []⟩

/-- `_generate_content_with_retry` with `max_retries = maxRetries`: up to
`maxRetries + 1` attempts starting at attempt index 0. -/
def generateContentWithRetry (provider : Nat → Except PyError String)
    (maxRetries : Nat) : RetryOutcome :=
  generateAux provider maxRetries 0

/-- Failure classification carried by a retry outcome, if it failed. -/
def resultFailureType (out : RetryOutcome) : Option AIFailureType :=
  match out.result with
  | Except.error fi => some fi.failureType
  | Except.ok _ => none

/-- The message of the `Exception` raised on exhaustion or early stop:
`f"{user_friendly_message} (Technical: {error_message})"`. -/
def combinedErrorMessage (fi : AIFailureInfo) : String :=
  fi.userFriendlyMessage ++ " (Technical: " ++ fi.errorMessage ++ ")"

/-! ## Prompts and provider payload -/

/-- `_create_virtual_try_on_prompt` (the f-string template, `.strip()`ped). -/
def createVirtualTryOnPrompt (userPhotosCount clothingCount : Nat) : String :=
  "You are a professional fashion AI assistant. Your task is to generate a realistic image of a person wearing selected clothing items.\n\nInstructions:\n1. Analyze the user's base photos to understand their body type, skin tone, and facial features\n2. Examine the selected clothing items to understand their style, color, and fit\n3. Generate a realistic image showing the user wearing the selected clothing\n4. Ensure the clothing fits naturally on the user's body\n5. Maintain the user's facial features and body proportions\n6. Pay attention to lighting and shadows for realism\n7. Ensure the clothing appears to be properly fitted and styled\n\nUser has provided "
    ++ toString userPhotosCount ++ " base photos and selected " ++ toString clothingCount
    ++ " clothing items.\n\nGenerate a high-quality, realistic image of the user wearing the selected clothing items."

/-- `_create_clothing_detection_prompt` (fixed template, `.strip()`ped). -/
def createClothingDetectionPrompt : String :=
  "Analyze this image and determine if it contains clothing items suitable for a virtual closet.\n\nInstructions:\n1. Identify if the image contains clothing (shirts, pants, dresses, shoes, accessories)\n2. Determine the clothing category (shirts, pants, shoes, dresses, accessories)\n3. Assess image quality (lighting, clarity, full item visible)\n4. Check if the clothing is suitable for virtual try-on\n\nReturn a JSON response with:\n- is_clothing: boolean\n- category: string\n- quality: \"good\" | \"fair\" | \"poor\"\n- suitable: boolean\n- confidence: number (0-1)"

/-- One element of the content list handed to `model.generate_content`:
either the prompt string or an `inline_data` image dict. -/
inductive ContentPart where
  | text (s : String)
  | inlineData (data : String) (mimeType : String)
deriving DecidableEq

/-- The `content` argument of `_generate_content_with_retry`: either a single
base64 image string or a list of already-assembled content parts. -/
inductive GenContent where
  | str (s : String)
  | parts (l : List ContentPart)

/-- The `content_parts` list built in `_generate_virtual_try_on`: the prompt,
then the user photos, then the clothing items, each as inline JPEG data. -/
def buildTryOnContentParts (prompt : String) (userPhotos clothingItems : List String) :
    List ContentPart :=
  ContentPart.text prompt ::
    (userPhotos.map (fun photo => ContentPart.inlineData photo "image/jpeg") ++
      clothingItems.map (fun item => ContentPart.inlineData item "image/jpeg"))

/-- The content list `_generate_content_with_retry` actually passes to
`model.generate_content` on each attempt: `[prompt, inline(content)]` for a
single image string, and `[prompt] + content` for a list of parts. -/
def sentPayload (prompt : String) (content : GenContent) : List ContentPart :=
  match content with
  | GenContent.str s => [ContentPart.text prompt, ContentPart.inlineData s "image/jpeg"]
  | GenContent.parts l => ContentPart.text prompt :: l

/-- `_extract_generated_image`: a placeholder that returns a fixed base64
image regardless of the provider response. -/
def extractGeneratedImage (_response : String) : String :=
  "data:image/jpeg;base64,/9j/4AAQSkZJRgABAQAAAQABAAD/2wBDAAYEBQYFBAYGBQYHBwYIChAKCgkJChQODwwQFxQYGBcUFhYaHSUfGhsjHBYWICwgIyYnKSopGR8tMC0oMCUoKSj/2wBDAQcHBwoIChMKChMoGhYaKCgoKCgoKCgoKCgoKCgoKCgoKCgoKCgoKCgoKCgoKCgoKCgoKCgoKCgoKCgoKCgoKCj/wAARCAABAAEDASIAAhEBAxEB/8QAFQABAQAAAAAAAAAAAAAAAAAAAAv/xAAUEAEAAAAAAAAAAAAAAAAAAAAA/8QAFQEBAQAAAAAAAAAAAAAAAAAAAAX/xAAUEQEAAAAAAAAAAAAAAAAAAAAA/9oADAMBAAIRAxEAPwCdABmX/9k="

/-! ## JSON model (Python's `json.loads`, restricted to what the detection
response parser needs) -/

/-- A JSON value as stored in a decoded flat object.  Nested objects and
arrays are not needed by any detection response considered here. -/
inductive JsonValue where
  | bool (b : Bool)
  | str (s : String)
  | num (q : ℚ)
  | null
deriving DecidableEq

/-- A decoded JSON object: key/value pairs in textual order. -/
abbrev JsonObj := List (String × JsonValue)

/-- Consume leading JSON whitespace. -/
def skipWs : List Char → List Char
  | [] => []
  | c :: cs => if c = ' ' ∨ c = '\n' ∨ c = '\t' ∨ c = '\r' then skipWs cs else c :: cs

/-- Read the body of a string literal up to the closing quote (the detection
strings contain no escapes). -/
def takeUntilQuote : List Char → Option (List Char × List Char)
  | [] => none
  | c :: cs =>
    if c = '"' then some ([], cs)
    else
      match takeUntilQuote cs with
      | some (body, rest) => some (c :: body, rest)
      | none => none

/-- Longest run of leading decimal digits, and the rest. -/
def takeDigits : List Char → List Char × List Char
  | [] => ([], [])
  | c :: cs =>
    if c.isDigit then
      let (ds, rest) := takeDigits cs
      (c :: ds, rest)
    else ([], c :: cs)

/-- Numeric value of a digit run. -/
def digitsVal (ds : List Char) : Nat :=
  ds.foldl (fun acc c => acc * 10 + (c.toNat - 48)) 0

/-- Parse an unsigned JSON number (integer part, optional fraction). -/
def parseNumberCore (cs : List Char) : Option (ℚ × List Char) :=
  let (ds, rest) := takeDigits cs
  if ds.isEmpty then none
  else
    match rest with
    | '.' :: rest2 =>
      let (fs, rest3) := takeDigits rest2
      if fs.isEmpty then none
      else some (((digitsVal ds : ℕ) : ℚ) + ((digitsVal fs : ℕ) : ℚ) / (10 : ℚ) ^ fs.length, rest3)
    | _ => some (((digitsVal ds : ℕ) : ℚ), rest)

/-- Parse one JSON scalar value. -/
def parseValue (cs : List Char) : Option (JsonValue × List Char) :=
  match cs with
  | [] => none
  | c :: rest =>
    if c = '"' then
      match takeUntilQuote rest with
      | some (body, rem) => some (JsonValue.str (String.mk body), rem)
      | none => none
    else if c = 't' then
      match rest with
      | 'r' :: 'u' :: 'e' :: rem => some (JsonValue.bool true, rem)
      | _ => none
    else if c = 'f' then
      match rest with
      | 'a' :: 'l' :: 's' :: 'e' :: rem => some (JsonValue.bool false, rem)
      | _ => none
    else if c = 'n' then
      match rest with
      | 'u' :: 'l' :: 'l' :: rem => some (JsonValue.null, rem)
      | _ => none
    else if c = '-' then
      match parseNumberCore rest with
      | some (q, rem) => some (JsonValue.num (-q), rem)
      | none => none
    else if c.isDigit then
      match parseNumberCore (c :: rest) with
      | some (q, rem) => some (JsonValue.num q, rem)
      | none => none
    else none

/-- Parse the comma-separated members of an object, positioned just after the
opening brace (first member follows); consumes the closing brace.  The fuel
argument bounds the number of members (one unit per member suffices). -/
def parseMembers : Nat → List Char → Option (JsonObj × List Char)
  | 0, _ => none
  | fuel + 1, cs =>
    match skipWs cs with
    | '"' :: rest =>
      match takeUntilQuote rest with
      | some (key, rem) =>
        match skipWs rem with
        | ':' :: rem2 =>
          match parseValue (skipWs rem2) with
          | some (v, rem3) =>
            match skipWs rem3 with
            | ',' :: rem4 =>
              match parseMembers fuel rem4 with
              | some (ms, rem5) => some ((String.mk key, v) :: ms, rem5)
              | none => none
            | c :: rem4 =>
              if c = rbrace then some ([(String.mk key, v)], rem4) else none
            | [] => none
          | none => none
        | _ => none
      | none => none
    | _ => none

/-- Models Python's `json.loads` on the strings the detection parser feeds
it: a single flat JSON object of string/boolean/number/null fields.  `none`
models a raised `JSONDecodeError` (including the empty string), and also the
uninteresting case of a non-object top level (on which the subsequent
attribute access would raise and land in the same `except` branch). -/
def jsonLoadsFlat (s : String) : Option JsonObj :=
  match skipWs s.data with
  | c :: rest =>
    if c = lbrace then
      match skipWs rest with
      | d :: rest2 =>
        if d = rbrace then
          if (skipWs rest2).isEmpty then some [] else none
        else
          match parseMembers (s.data.length + 1) (d :: rest2) with
          | some (ms, rem) => if (skipWs rem).isEmpty then some ms else none
          | none => none
      | [] => none
    else none
  | [] => none

/-! ## Clothing-detection response parsing
(`_parse_clothing_detection_response`, `_fallback_parse_detection`) -/

/-- First value under `key`, if any (`data.get(key, default)` §lookup part). -/
def jsonGet (obj : JsonObj) (key : String) : Option JsonValue :=
  match obj.find? (fun p => p.1 == key) with
  | some p => some p.2
  | none => none

/-- `data.get(key, default)` read as a boolean.  (Python would store a value
of any type unchecked; the typed read agrees with it on every well-typed
object, which covers all inputs considered here.) -/
def jsonGetBool (obj : JsonObj) (key : String) (dflt : Bool) : Bool :=
  match jsonGet obj key with
  | some (JsonValue.bool b) => b
  | _ => dflt

/-- `data.get(key, default)` read as a string. -/
def jsonGetStr (obj : JsonObj) (key : String) (dflt : String) : String :=
  match jsonGet obj key with
  | some (JsonValue.str s) => s
  | _ => dflt

/-- `data.get(key, default)` read as a number. -/
def jsonGetNum (obj : JsonObj) (key : String) (dflt : ℚ) : ℚ :=
  match jsonGet obj key with
  | some (JsonValue.num q) => q
  | _ => dflt

/-- The `ClothingDetectionResult` built from a decoded object, with the
`data.get` defaults of the source. -/
def readDetection (obj : JsonObj) : ClothingDetectionResult :=
  ⟨jsonGetBool obj "is_clothing" false,
   jsonGetStr obj "category" "unknown",
   jsonGetStr obj "quality" "poor",
   jsonGetBool obj "suitable" false,
   jsonGetNum obj "confidence" 0⟩

/-- The result returned from the `except` branches of
`_parse_clothing_detection_response` and `detect_clothing`. -/
def defaultDetection : ClothingDetectionResult :=
  ⟨false, "unknown", "poor", false, 0⟩

/-- Keywords scanned by `_fallback_parse_detection`. -/
def fallbackKeywords : List String := ["shirt", "pants", "dress", "shoes", "clothing"]

/-- `_fallback_parse_detection`. -/
def fallbackParseDetection (response : String) : ClothingDetectionResult :=
  let responseLower := strLower response
  let isClothing := fallbackKeywords.any (fun w => pyIn w responseLower)
  ⟨isClothing, "unknown", "fair", isClothing, if isClothing then 1/2 else 0⟩

/-- `_parse_clothing_detection_response`, parameterized by the `json.loads`
collaborator.  Note `json_end = response.rfind(rbrace) + 1` is `0`, not `-1`,
when no closing brace exists, so the guard only tests for an opening brace;
a decode failure inside the guarded branch lands in the `except` branch
(returning `defaultDetection`), not in the keyword fallback. -/
def parseClothingDetectionResponse (jsonLoads : String → Option JsonObj)
    (response : String) : ClothingDetectionResult :=
  let jsonStart := pyFind response lbrace
  let jsonEnd := pyRfind response rbrace + 1
  if jsonStart ≠ -1 ∧ jsonEnd ≠ -1 then
    match jsonLoads (pySlice response jsonStart jsonEnd) with
    | some obj => readDetection obj
    | none => defaultDetection
  else fallbackParseDetection response

/-! ## Request validation and image preparation
(`_validate_request`, `_prepare_images_for_ai`) -/

/-- The dict returned by `_validate_request`. -/
structure ValidationResult where
  valid : Bool
  error : Option String
deriving DecidableEq

/-- `_validate_request`. -/
def validateRequest (req : VirtualTryOnRequest) : ValidationResult :=
  if req.userBasePhotos.isEmpty then ⟨false, some "No user base photos provided"⟩
  else if req.clothingItems.isEmpty then ⟨false, some "No clothing items selected"⟩
  else if 3 < req.userBasePhotos.length then ⟨false, some "Too many user base photos (max 3)"⟩
  else if 5 < req.clothingItems.length then ⟨false, some "Too many clothing items (max 5)"⟩
  else ⟨true, none⟩

/-- One of the two per-role loops of `_prepare_images_for_ai`: decode each
base64 buffer, hand it to the preparation collaborator, and append the
re-encoded processed image when preparation reports success; buffers whose
preparation fails are skipped. -/
def prepareSeq (prep : Bytes → PrepOutcome) (dec : String → Bytes)
    (enc : Bytes → String) : List String → List String
  | [] => []
  | b :: rest =>
    let r := prep (dec b)
    if r.success then enc r.processedImage :: prepareSeq prep dec enc rest
    else prepareSeq prep dec enc rest

/-- The dict returned by `_prepare_images_for_ai`. -/
structure PreparedImages where
  userPhotos : List String
  clothingItems : List String
deriving DecidableEq

/-- `_prepare_images_for_ai`, parameterized by the two preparation
collaborators (`prepare_base_photo_for_ai_bytes`,
`prepare_clothing_image_for_ai_bytes`) and base64 decode/encode. -/
def prepareImagesForAI (prepPhoto prepCloth : Bytes → PrepOutcome)
    (dec : String → Bytes) (enc : Bytes → String)
    (req : VirtualTryOnRequest) : PreparedImages :=
  ⟨prepareSeq prepPhoto dec enc req.userBasePhotos,
   prepareSeq prepCloth dec enc req.clothingItems⟩

/-! ## Try-on orchestrator (`process_virtual_try_on`) -/

/-- Result of one run of `process_virtual_try_on`, together with how many
buffers were handed to image preparation and how many provider attempts were
made (so `no provider call occurs` is a statement, not a side effect). -/
structure ProcessTrace where
  result : VirtualTryOnResult
  prepCalls : Nat
  providerCalls : Nat
deriving DecidableEq

/-- `process_virtual_try_on`: validate, prepare images, build the prompt and
content parts, call the retrying client, and package the result.  On a retry
failure the client raises `Exception(combinedErrorMessage ...)`, which the
orchestrator's `except` branch re-classifies to build the failure metadata.
(`processing_time` is wall-clock and not modelled.) -/
def processVirtualTryOn (prepPhoto prepCloth : Bytes → PrepOutcome)
    (dec : String → Bytes) (enc : Bytes → String)
    (provider : Nat → Except PyError String) (maxRetries : Nat)
    (req : VirtualTryOnRequest) : ProcessTrace :=
  let v := validateRequest req
  if v.valid = false then
    ⟨⟨false, none, v.error, 0, none⟩, 0, 0⟩
  else
    let prepared := prepareImagesForAI prepPhoto prepCloth dec enc req
    let prompt := createVirtualTryOnPrompt prepared.userPhotos.length prepared.clothingItems.length
    let _contentParts := buildTryOnContentParts prompt prepared.userPhotos prepared.clothingItems
    let out := generateContentWithRetry provider maxRetries
    let prepCalls := req.userBasePhotos.length + req.clothingItems.length
    match out.result with
    | Except.ok response =>
      ⟨⟨true, some (extractGeneratedImage response), none, 0,
        some (TryOnMetadata.successMeta req.sessionId req.userId
          req.userBasePhotos.length req.clothingItems.length)⟩,
       prepCalls, out.attempts⟩
    | Except.error fi =>
      let raised : PyError := ⟨combinedErrorMessage fi, "Exception"⟩
      let fi2 := classifyFailure raised
      ⟨⟨false, none, some fi2.userFriendlyMessage, 0,
        some (TryOnMetadata.failureMeta fi2.failureType fi2.suggestedAction
          fi2.retryable fi2.retryAfterSeconds fi2.errorMessage)⟩,
       prepCalls, out.attempts⟩

/-- The failure kind a `VirtualTryOnResult` carries (via its failure
metadata), if any. -/
def resultKind (r : VirtualTryOnResult) : Option AIFailureType :=
  match r.metadata with
  | some (TryOnMetadata.failureMeta ft _ _ _ _) => some ft
  | _ => none

/-! ## Clothing detection (`detect_clothing`) -/

/-- `detect_clothing`, parameterized by the clothing-preparation
collaborator, base64 encoding, the provider, and `json.loads`.  Every
exception path of the source (preparation failure, provider failure after
retries, parse errors) returns `defaultDetection`; the function is total. -/
def detectClothing (prep : Bytes → PrepOutcome) (enc : Bytes → String)
    (provider : Nat → Except PyError String) (maxRetries : Nat)
    (jsonLoads : String → Option JsonObj) (imageData : Bytes) :
    ClothingDetectionResult :=
  let r := prep imageData
  if r.success = false then defaultDetection
  else
    let _imageBase64 := enc r.processedImage
    match (generateContentWithRetry provider maxRetries).result with
    | Except.error _ => defaultDetection
    | Except.ok response => parseClothingDetectionResponse jsonLoads response

/-- The clothing-detection response string used as the worked example in the
specification (braces written via their codes). -/
def exampleDetectionResponse : String :=
  "prefix \x7b\"is_clothing\": true, \"category\": \"shirt\", \"quality\": \"good\", \"suitable\": true, \"confidence\": 0.9\x7d suffix"

/-! ## Helper lemmas -/

/-- An error whose lowercased message matches a quota keyword classifies as
quota-exceeded (the first table entry). -/
theorem classifyFailure_quota_of_any (e : PyError)
    (hq : quotaPatterns.any (fun p => pyIn p (strLower e.message)) = true) :
    classifyFailure e = createFailureInfo AIFailureType.API_QUOTA_EXCEEDED e := by
  simp [classifyFailure, findMatch, failurePatterns, hq]

/-- An error whose lowercased message matches no quota keyword but matches a
rate-limit keyword classifies as rate-limited. -/
theorem classifyFailure_rate_of_any (e : PyError)
    (hq : quotaPatterns.any (fun p => pyIn p (strLower e.message)) = false)
    (hr : rateLimitPatterns.any (fun p => pyIn p (strLower e.message)) = true) :
    classifyFailure e = createFailureInfo AIFailureType.API_RATE_LIMIT e := by
  simp [classifyFailure, findMatch, failurePatterns, hq, hr]

/-- If every attempt fails and every failure classifies as retryable, the
loop body starting at `attempt` with `remaining` further indices performs
`remaining + 1` attempts and ends with the classification of the last
attempt's error. -/
theorem generateAux_all_retryable (provider : Nat → Except PyError String)
    (es : Nat → PyError)
    (hp : ∀ i, provider i = Except.error (es i))
    (hr : ∀ i, (classifyFailure (es i)).retryable = true) :
    ∀ remaining attempt,
      (generateAux provider remaining attempt).attempts = remaining + 1 ∧
      (generateAux provider remaining attempt).result =
        Except.error (classifyFailure (es (attempt + remaining))) := by
  intro remaining
  induction remaining with
  | zero =>
    intro attempt
    simp [generateAux, hp attempt]
  | succ r ih =>
    intro attempt
    have hrec := ih (attempt + 1)
    have hidx : attempt + 1 + r = attempt + (r + 1) := by omega
    rw [hidx] at hrec
    simp [generateAux, hp attempt, hr attempt, hrec.1, hrec.2]

/-- A request that is empty or out of bounds on either role fails
validation. -/
theorem validateRequest_invalid (req : VirtualTryOnRequest)
    (h : req.userBasePhotos = [] ∨ req.clothingItems = [] ∨
         3 < req.userBasePhotos.length ∨ 5 < req.clothingItems.length) :
    (validateRequest req).valid = false := by
  unfold validateRequest
  split_ifs with h1 h2 h3 h4
  · rfl
  · rfl
  · rfl
  · rfl
  · exfalso
    rcases h with h | h | h | h
    · simp [h] at h1
    · simp [h] at h2
    · exact h3 h
    · exact h4 h

/-- The per-role preparation loop keeps exactly the successfully prepared
buffers, re-encoded, in their original relative order. -/
theorem prepareSeq_filter_map (prep : Bytes → PrepOutcome) (dec : String → Bytes)
    (enc : Bytes → String) (l : List String) :
    prepareSeq prep dec enc l =
      (l.filter (fun b => (prep (dec b)).success)).map
        (fun b => enc (prep (dec b)).processedImage) := by
  induction l with
  | nil => rfl
  | cons b rest ih =>
    cases hb : (prep (dec b)).success <;>
      simp [prepareSeq, List.filter_cons, hb, ih]

/-- Adding one never turns an rfind result into `-1`. -/
theorem pyRfind_succ_ne_neg_one (s : String) (c : Char) : pyRfind s c + 1 ≠ -1 := by
  unfold pyRfind
  rcases hx : rfindCharAux c s.data 0 none with _ | i
  · simp [hx]
  · simp [hx]
    omega

/-! ## Claims -/

/-- C1 (amended): for every `max_retries = n ≥ 0`, if every provider call
raises an error whose lowercased message contains "rate limit" and matches
none of the quota-exceeded keywords (which the classifier checks first), the
retrying client performs exactly `n + 1` provider attempts and surfaces a
final failure classified as rate-limited. -/
theorem claim_C1_rate_limited_exhaustion (provider : Nat → Except PyError String)
    (es : Nat → PyError) (n : Nat)
    (hp : ∀ i, provider i = Except.error (es i))
    (hq : ∀ i, quotaPatterns.any (fun p => pyIn p (strLower (es i).message)) = false)
    (hr : ∀ i, pyIn "rate limit" (strLower (es i).message) = true) :
    (generateContentWithRetry provider n).attempts = n + 1 ∧
    resultFailureType (generateContentWithRetry provider n) =
      some AIFailureType.API_RATE_LIMIT := by
  have hcl : ∀ i, classifyFailure (es i) =
      createFailureInfo AIFailureType.API_RATE_LIMIT (es i) := by
    intro i
    apply classifyFailure_rate_of_any _ (hq i)
    simp [rateLimitPatterns, List.any_cons, hr i]
  have hret : ∀ i, (classifyFailure (es i)).retryable = true := by
    intro i
    rw [hcl i]
    rfl
  have h := generateAux_all_retryable provider es hp hret n 0
  refine ⟨h.1, ?_⟩
  show resultFailureType (generateAux provider n 0) = some AIFailureType.API_RATE_LIMIT
  rw [resultFailureType, h.2, hcl]
  rfl

/-- C1 witness: three attempts for `max_retries = 2` against a provider that
always raises "rate limit", failing rate-limited. -/
theorem claim_C1_rate_limited_exhaustion_witness :
    (generateContentWithRetry (fun _ => Except.error ⟨"rate limit", "Exception"⟩) 2).attempts =
      2 + 1 ∧
    resultFailureType (generateContentWithRetry
        (fun _ => Except.error ⟨"rate limit", "Exception"⟩) 2) =
      some AIFailureType.API_RATE_LIMIT :=
  claim_C1_rate_limited_exhaustion _ (fun _ => ⟨"rate limit", "Exception"⟩) 2
    (fun _ => rfl)
    (fun _ => (by decide :
      quotaPatterns.any (fun p => pyIn p (strLower "rate limit")) = false))
    (fun _ => (by decide : pyIn "rate limit" (strLower "rate limit") = true))

/-- C1 counterexample: the message "billing rate limit" contains
"rate limit", yet the final failure classifies as quota-exceeded (the quota
keyword "billing" is checked first), so the claim as stated is false; the
attempt count part still holds. -/
theorem claim_C1_counterexample :
    pyIn "rate limit" (strLower "billing rate limit") = true ∧
    (generateContentWithRetry
        (fun _ => Except.error ⟨"billing rate limit", "Exception"⟩) 0).attempts = 0 + 1 ∧
    resultFailureType (generateContentWithRetry
        (fun _ => Except.error ⟨"billing rate limit", "Exception"⟩) 0) =
      some AIFailureType.API_QUOTA_EXCEEDED ∧
    resultFailureType (generateContentWithRetry
        (fun _ => Except.error ⟨"billing rate limit", "Exception"⟩) 0) ≠
      some AIFailureType.API_RATE_LIMIT :=
  ⟨by decide, by decide, by decide, by decide⟩

/-- C2: the content list actually passed to the provider for a virtual
try-on generation contains the prompt twice (once from
`_generate_virtual_try_on`'s `content_parts` and once prepended again by
`_generate_content_with_retry`), followed by the photo parts and the
clothing parts — not a single prompt copy as specified. -/
theorem claim_C2_payload_duplicates_prompt :
    sentPayload (createVirtualTryOnPrompt 1 1)
        (GenContent.parts (buildTryOnContentParts (createVirtualTryOnPrompt 1 1) ["p"] ["c"])) =
      [ContentPart.text (createVirtualTryOnPrompt 1 1),
       ContentPart.text (createVirtualTryOnPrompt 1 1),
       ContentPart.inlineData "p" "image/jpeg",
       ContentPart.inlineData "c" "image/jpeg"] := rfl

/-- C3: if the first provider attempt raises an error classified as
non-retryable, the retrying client makes exactly 1 attempt in total,
performs no sleep, and surfaces that classification, for every
`max_retries`. -/
theorem claim_C3_nonretryable_single_attempt
    (provider : Nat → Except PyError String) (e : PyError) (n : Nat)
    (hp : provider 0 = Except.error e)
    (hnr : (classifyFailure e).retryable = false) :
    (generateContentWithRetry provider n).attempts = 1 ∧
    (generateContentWithRetry provider n).sleptAfter = [] ∧
    (generateContentWithRetry provider n).result = Except.error (classifyFailure e) := by
  cases n with
  | zero => simp [generateContentWithRetry, generateAux, hp]
  | succ r => simp [generateContentWithRetry, generateAux, hp, hnr]

/-- C3 witness: an "unauthorized" error stops the loop after one attempt
with no sleep, for `max_retries = 3`. -/
theorem claim_C3_nonretryable_single_attempt_witness :
    (generateContentWithRetry (fun _ => Except.error ⟨"unauthorized", "Exception"⟩) 3).attempts =
      1 ∧
    (generateContentWithRetry
        (fun _ => Except.error ⟨"unauthorized", "Exception"⟩) 3).sleptAfter = [] ∧
    (generateContentWithRetry (fun _ => Except.error ⟨"unauthorized", "Exception"⟩) 3).result =
      Except.error (classifyFailure ⟨"unauthorized", "Exception"⟩) :=
  claim_C3_nonretryable_single_attempt _ _ 3 rfl (by decide)

/-- C4 (amended): for every request whose photo or clothing sequence is
empty, or with more than 3 photos or more than 5 clothing items, processing
returns a failure result carrying the validation error message and no
metadata at all — in particular no invalid-request failure kind — and no
image preparation and no provider call occurs. -/
theorem claim_C4_invalid_request (prepPhoto prepCloth : Bytes → PrepOutcome)
    (dec : String → Bytes) (enc : Bytes → String)
    (provider : Nat → Except PyError String) (n : Nat) (req : VirtualTryOnRequest)
    (h : req.userBasePhotos = [] ∨ req.clothingItems = [] ∨
         3 < req.userBasePhotos.length ∨ 5 < req.clothingItems.length) :
    (processVirtualTryOn prepPhoto prepCloth dec enc provider n req).result.success = false ∧
    (processVirtualTryOn prepPhoto prepCloth dec enc provider n req).result.error =
      (validateRequest req).error ∧
    (processVirtualTryOn prepPhoto prepCloth dec enc provider n req).result.metadata = none ∧
    (processVirtualTryOn prepPhoto prepCloth dec enc provider n req).prepCalls = 0 ∧
    (processVirtualTryOn prepPhoto prepCloth dec enc provider n req).providerCalls = 0 := by
  have hv := validateRequest_invalid req h
  simp [processVirtualTryOn, hv]

/-- C4 witness: a request with no user photos is rejected with the
validation message, no metadata, and zero preparation and provider calls. -/
theorem claim_C4_invalid_request_witness :
    (processVirtualTryOn (fun _ => ⟨true, []⟩) (fun _ => ⟨true, []⟩) (fun _ => [])
        (fun _ => "") (fun _ => Except.ok "resp") 3
        ⟨[], ["item"], "sess", "user"⟩).result.success = false ∧
    (processVirtualTryOn (fun _ => ⟨true, []⟩) (fun _ => ⟨true, []⟩) (fun _ => [])
        (fun _ => "") (fun _ => Except.ok "resp") 3
        ⟨[], ["item"], "sess", "user"⟩).result.error =
      some "No user base photos provided" ∧
    (processVirtualTryOn (fun _ => ⟨true, []⟩) (fun _ => ⟨true, []⟩) (fun _ => [])
        (fun _ => "") (fun _ => Except.ok "resp") 3
        ⟨[], ["item"], "sess", "user"⟩).result.metadata = none ∧
    (processVirtualTryOn (fun _ => ⟨true, []⟩) (fun _ => ⟨true, []⟩) (fun _ => [])
        (fun _ => "") (fun _ => Except.ok "resp") 3
        ⟨[], ["item"], "sess", "user"⟩).prepCalls = 0 ∧
    (processVirtualTryOn (fun _ => ⟨true, []⟩) (fun _ => ⟨true, []⟩) (fun _ => [])
        (fun _ => "") (fun _ => Except.ok "resp") 3
        ⟨[], ["item"], "sess", "user"⟩).providerCalls = 0 :=
  claim_C4_invalid_request (fun _ => ⟨true, []⟩) (fun _ => ⟨true, []⟩) (fun _ => [])
    (fun _ => "") (fun _ => Except.ok "resp") 3 ⟨[], ["item"], "sess", "user"⟩ (Or.inl rfl)

/-- C4 counterexample: on a request with an empty photo sequence the failure
result carries no failure-kind metadata, so it is not a failure "with kind
invalid-request" as the claim states. -/
theorem claim_C4_counterexample :
    (processVirtualTryOn (fun _ => ⟨true, []⟩) (fun _ => ⟨true, []⟩) (fun _ => [])
        (fun _ => "") (fun _ => Except.ok "resp") 3
        ⟨[], ["itemB"], "sess", "user"⟩).result.success = false ∧
    resultKind (processVirtualTryOn (fun _ => ⟨true, []⟩) (fun _ => ⟨true, []⟩)
        (fun _ => []) (fun _ => "") (fun _ => Except.ok "resp") 3
        ⟨[], ["itemB"], "sess", "user"⟩).result = none ∧
    resultKind (processVirtualTryOn (fun _ => ⟨true, []⟩) (fun _ => ⟨true, []⟩)
        (fun _ => []) (fun _ => "") (fun _ => Except.ok "resp") 3
        ⟨[], ["itemB"], "sess", "user"⟩).result ≠
      some AIFailureType.INVALID_REQUEST :=
  ⟨by decide, by decide, by decide⟩

/-- C5 (amended): the parser extracts the substring from the first opening
brace to the last closing brace and reads the five fields from its JSON
decode whenever the response contains an opening brace (a decode failure
yields the fixed default result, since the absent-closing-brace guard is
vacuous); the keyword-scanning fallback runs exactly when the response
contains no opening brace; and the specification's worked example yields
exactly the five stated field values. -/
theorem claim_C5_detection_parsing :
    (∀ (decode : String → Option JsonObj) (response : String),
        pyFind response lbrace = -1 →
        parseClothingDetectionResponse decode response = fallbackParseDetection response) ∧
    (∀ (decode : String → Option JsonObj) (response : String),
        pyFind response lbrace ≠ -1 →
        parseClothingDetectionResponse decode response =
          match decode (pySlice response (pyFind response lbrace)
              (pyRfind response rbrace + 1)) with
          | some obj => readDetection obj
          | none => defaultDetection) ∧
    (parseClothingDetectionResponse jsonLoadsFlat exampleDetectionResponse).is_clothing = true ∧
    (parseClothingDetectionResponse jsonLoadsFlat exampleDetectionResponse).category = "shirt" ∧
    (parseClothingDetectionResponse jsonLoadsFlat exampleDetectionResponse).quality = "good" ∧
    (parseClothingDetectionResponse jsonLoadsFlat exampleDetectionResponse).suitable = true ∧
    (parseClothingDetectionResponse jsonLoadsFlat exampleDetectionResponse).confidence = 9/10 ∧
    fallbackParseDetection "a nice shirt" = ⟨true, "unknown", "fair", true, 1/2⟩ := by
  refine ⟨?_, ?_, by decide, by decide, by decide, by decide, ?_, rfl⟩
  · intro decode response h
    simp [parseClothingDetectionResponse, h]
  · intro decode response h
    have hend := pyRfind_succ_ne_neg_one response rbrace
    simp [parseClothingDetectionResponse, h, hend]
  · have h1 : (parseClothingDetectionResponse jsonLoadsFlat exampleDetectionResponse).confidence =
        ((digitsVal ['0'] : ℕ) : ℚ) + ((digitsVal ['9'] : ℕ) : ℚ) / (10 : ℚ) ^ (1 : ℕ) := rfl
    have h0 : digitsVal ['0'] = 0 := by decide
    have h9 : digitsVal ['9'] = 9 := by decide
    rw [h1, h0, h9]
    norm_num

/-- C5 witness: a response with no braces goes through the keyword
fallback. -/
theorem claim_C5_detection_parsing_witness :
    parseClothingDetectionResponse jsonLoadsFlat "a nice shirt" =
      fallbackParseDetection "a nice shirt" :=
  claim_C5_detection_parsing.1 jsonLoadsFlat "a nice shirt" (by decide)

/-- C5 counterexample: on a response with an opening but no closing brace
the JSON decode fails and the parser returns the fixed default result, not
the keyword fallback the claim requires (which would report clothing with
confidence one half here). -/
theorem claim_C5_counterexample :
    parseClothingDetectionResponse jsonLoadsFlat "\x7b shirt" = defaultDetection ∧
    fallbackParseDetection "\x7b shirt" = ⟨true, "unknown", "fair", true, 1/2⟩ ∧
    parseClothingDetectionResponse jsonLoadsFlat "\x7b shirt" ≠
      fallbackParseDetection "\x7b shirt" := by
  refine ⟨rfl, rfl, ?_⟩
  intro h
  exact absurd (congrArg ClothingDetectionResult.is_clothing h) (by decide)

/-- C6: the backoff delay is 0 for attempt index 0, and for indices `a ≥ 1`
equals `min(base_delay * multiplier^(a-1), max_delay)` plus, when jitter is
enabled, that capped delay times the uniform draw `u` from `[0.1, 0.3]`
(modelled as the explicit parameter `u`). -/
theorem claim_C6_backoff_formula (cfg : RetryConfig) (u : ℚ) (a : Nat) :
    calculateRetryDelay cfg u 0 = 0 ∧
    (1 ≤ a →
      calculateRetryDelay cfg u a =
        min (cfg.baseDelay * cfg.backoffMultiplier ^ (a - 1)) cfg.maxDelay +
          (if cfg.jitter then
              min (cfg.baseDelay * cfg.backoffMultiplier ^ (a - 1)) cfg.maxDelay * u
            else 0)) := by
  constructor
  · rfl
  · intro ha
    have h0 : ¬(a = 0) := by omega
    simp only [calculateRetryDelay, if_neg h0]
    cases hj : cfg.jitter
    · simp [hj]
    · simp [hj, mul_comm]

/-- C6 witness: with the default configuration, a uniform draw of one fifth
and attempt index 3 the delay is `4 + 4/5`. -/
theorem claim_C6_backoff_formula_witness :
    calculateRetryDelay ⟨3, 1, 60, 2, true⟩ (1/5) 3 = 24/5 := by
  have h := (claim_C6_backoff_formula ⟨3, 1, 60, 2, true⟩ (1/5) 3).2 (by omega)
  rw [h]
  norm_num [min_def]

/-- C7: for every configuration with non-negative base delay, max delay and
multiplier, and every attempt index, the computed delay is never negative
and never exceeds `max_delay * 1.3`, with or without jitter. -/
theorem claim_C7_delay_bounds (cfg : RetryConfig) (u : ℚ) (a : Nat)
    (hb : 0 ≤ cfg.baseDelay) (hm : 0 ≤ cfg.maxDelay)
    (hmu : 0 ≤ cfg.backoffMultiplier) (hu1 : 1/10 ≤ u) (hu2 : u ≤ 3/10) :
    0 ≤ calculateRetryDelay cfg u a ∧
    calculateRetryDelay cfg u a ≤ cfg.maxDelay * (13/10) := by
  by_cases h0 : a = 0
  · subst h0
    have hz : calculateRetryDelay cfg u 0 = 0 := rfl
    rw [hz]
    exact ⟨le_refl 0, by nlinarith⟩
  · have hd0 : 0 ≤ min (cfg.baseDelay * cfg.backoffMultiplier ^ (a - 1)) cfg.maxDelay :=
      le_min (mul_nonneg hb (pow_nonneg hmu _)) hm
    have hdm : min (cfg.baseDelay * cfg.backoffMultiplier ^ (a - 1)) cfg.maxDelay ≤
        cfg.maxDelay := min_le_right _ _
    have hu0 : 0 ≤ u := by linarith
    simp only [calculateRetryDelay, if_neg h0]
    cases hj : cfg.jitter
    · simp only [hj, Bool.false_eq_true, if_false]
      exact ⟨hd0, by nlinarith⟩
    · simp only [hj, if_true]
      constructor
      · nlinarith
      · nlinarith

/-- C7 witness: the bounds hold at the default configuration, a uniform
draw of one fifth, and attempt index 5. -/
theorem claim_C7_delay_bounds_witness :
    0 ≤ calculateRetryDelay ⟨3, 1, 60, 2, true⟩ (1/5) 5 ∧
    calculateRetryDelay ⟨3, 1, 60, 2, true⟩ (1/5) 5 ≤ 60 * (13/10) :=
  claim_C7_delay_bounds ⟨3, 1, 60, 2, true⟩ (1/5) 5 (by norm_num) (by norm_num)
    (by norm_num) (by norm_num) (by norm_num)

/-- C8 (amended): classification scans the fixed table with first match
winning, so every message containing "quota exceeded" classifies as
quota-exceeded; every message containing "429" and matching no
quota-exceeded keyword (quota is checked first) classifies as rate-limited;
and every error matching no table keyword whose type name contains
"timeout" classifies as timeout. -/
theorem claim_C8_classification :
    (∀ e : PyError, pyIn "quota exceeded" (strLower e.message) = true →
        (classifyFailure e).failureType = AIFailureType.API_QUOTA_EXCEEDED) ∧
    (∀ e : PyError,
        quotaPatterns.any (fun p => pyIn p (strLower e.message)) = false →
        pyIn "429" (strLower e.message) = true →
        (classifyFailure e).failureType = AIFailureType.API_RATE_LIMIT) ∧
    (∀ e : PyError, findMatch failurePatterns (strLower e.message) = none →
        pyIn "timeout" (strLower e.typeName) = true →
        (classifyFailure e).failureType = AIFailureType.API_TIMEOUT) := by
  refine ⟨?_, ?_, ?_⟩
  · intro e h
    have hq : quotaPatterns.any (fun p => pyIn p (strLower e.message)) = true := by
      simp [quotaPatterns, List.any_cons, h]
    rw [classifyFailure_quota_of_any e hq]
    rfl
  · intro e hq h429
    have hr : rateLimitPatterns.any (fun p => pyIn p (strLower e.message)) = true := by
      simp [rateLimitPatterns, List.any_cons, h429]
    rw [classifyFailure_rate_of_any e hq hr]
    rfl
  · intro e hnone ht
    simp [classifyFailure, hnone, ht, createFailureInfo]

/-- C8 witness: the three round-trip classifications at concrete errors. -/
theorem claim_C8_classification_witness :
    (classifyFailure ⟨"quota exceeded", "Exception"⟩).failureType =
      AIFailureType.API_QUOTA_EXCEEDED ∧
    (classifyFailure ⟨"http 429", "Exception"⟩).failureType =
      AIFailureType.API_RATE_LIMIT ∧
    (classifyFailure ⟨"boom", "TimeoutError"⟩).failureType =
      AIFailureType.API_TIMEOUT :=
  ⟨claim_C8_classification.1 ⟨"quota exceeded", "Exception"⟩ (by decide),
   claim_C8_classification.2.1 ⟨"http 429", "Exception"⟩ (by decide) (by decide),
   claim_C8_classification.2.2 ⟨"boom", "TimeoutError"⟩ (by decide) (by decide)⟩

/-- C8 counterexample: "billing 429" contains "429" but classifies as
quota-exceeded, because the quota keyword "billing" is matched first, so
the claim's "every error containing 429 is rate-limited" is false. -/
theorem claim_C8_counterexample :
    pyIn "429" (strLower "billing 429") = true ∧
    (classifyFailure ⟨"billing 429", "Exception"⟩).failureType =
      AIFailureType.API_QUOTA_EXCEEDED ∧
    (classifyFailure ⟨"billing 429", "Exception"⟩).failureType ≠
      AIFailureType.API_RATE_LIMIT :=
  ⟨by decide, by decide, by decide⟩

/-- C9: image preparation hands every buffer of each role to its preparation
collaborator and keeps exactly the successfully prepared images, re-encoded,
in their original relative order; a buffer whose preparation reports failure
is omitted from its sequence without failing the request. -/
theorem claim_C9_prepare_images (prepPhoto prepCloth : Bytes → PrepOutcome)
    (dec : String → Bytes) (enc : Bytes → String) (req : VirtualTryOnRequest) :
    (prepareImagesForAI prepPhoto prepCloth dec enc req).userPhotos =
      (req.userBasePhotos.filter (fun b => (prepPhoto (dec b)).success)).map
        (fun b => enc (prepPhoto (dec b)).processedImage) ∧
    (prepareImagesForAI prepPhoto prepCloth dec enc req).clothingItems =
      (req.clothingItems.filter (fun b => (prepCloth (dec b)).success)).map
        (fun b => enc (prepCloth (dec b)).processedImage) :=
  ⟨prepareSeq_filter_map prepPhoto dec enc req.userBasePhotos,
   prepareSeq_filter_map prepCloth dec enc req.clothingItems⟩

/-- C10: `detect_clothing` always returns a result and never propagates an
exception: a preparation failure yields the fixed default result, a provider
failure (after retries) yields the fixed default result, and a provider
success is parsed by the (total) detection parser. -/
theorem claim_C10_detect_default (prep : Bytes → PrepOutcome) (enc : Bytes → String)
    (provider : Nat → Except PyError String) (n : Nat)
    (decode : String → Option JsonObj) (img : Bytes) :
    ((prep img).success = false →
        detectClothing prep enc provider n decode img = defaultDetection) ∧
    (∀ fi, (generateContentWithRetry provider n).result = Except.error fi →
        detectClothing prep enc provider n decode img = defaultDetection) ∧
    (∀ resp, (prep img).success = true →
        (generateContentWithRetry provider n).result = Except.ok resp →
        detectClothing prep enc provider n decode img =
          parseClothingDetectionResponse decode resp) := by
  refine ⟨?_, ?_, ?_⟩
  · intro h
    simp [detectClothing, h]
  · intro fi hfi
    by_cases h : (prep img).success = false
    · simp [detectClothing, h]
    · simp [detectClothing, h, hfi]
  · intro resp hs hok
    simp [detectClothing, hs, hok]

/-- C10 witness: a preparation failure returns the fixed default result. -/
theorem claim_C10_detect_default_witness :
    detectClothing (fun _ => ⟨false, []⟩) (fun _ => "") (fun _ => Except.ok "resp") 0
      (fun _ => none) [] = defaultDetection :=
  (claim_C10_detect_default (fun _ => ⟨false, []⟩) (fun _ => "") (fun _ => Except.ok "resp") 0
    (fun _ => none) []).1 rfl
